import Mathlib

/-!
Verification of the SnappyFrontend wrapper (src/snappy.rs), a safe API layer
around the external snappy codec.

Modelling conventions (shallow embedding):
- A C byte buffer given as a (pointer, length) pair is modelled as a
  `List Nat`; the `length` argument of the Rust functions is the list length.
- The external codec (declared in the `extern` block of src/snappy.rs,
  implemented by google/snappy, outside this repository) is modelled as an
  abstract `Codec` record; the five C primitives are defined on top of it,
  following the contracts stated in their doc comments in src/snappy.rs.
- Out-parameters written through pointers become returned values: a primitive
  that writes bytes through an output pointer returns the pair
  (result code, bytes at the output pointer after the call).
- `deflate` in the Rust source returns only the `SnappyResult`: the buffer it
  mallocs is bound to a local that shadows the `buffer_ptr` parameter and is
  never surfaced.  `deflateRun` models the full effect (result code together
  with the content of the malloc'd buffer after the call); `deflate` is its
  first component, matching the Rust return type.
-/

/-- `SnappyResult` (src/snappy.rs lines 41-48): return values for snappy
operations, a closed set of three variants. -/
inductive SnappyResult where
  | Ok : SnappyResult
  | InvalidInput : SnappyResult
  | InsufficientBuffer : SnappyResult
deriving DecidableEq, Repr

namespace SnappyResult

/-- `SnappyResult::is_ok` (src/snappy.rs line 70). -/
def is_ok : SnappyResult → Bool
  | SnappyResult.Ok => true
  | _ => false

/-- `SnappyResult::not_ok` (src/snappy.rs line 71): defined as `!self.is_ok()`. -/
def not_ok (r : SnappyResult) : Bool := ! r.is_ok

/-- `SnappyResult::bad_input` (src/snappy.rs line 72). -/
def bad_input : SnappyResult → Bool
  | SnappyResult.InvalidInput => true
  | _ => false

/-- `SnappyResult::insuff_buf` (src/snappy.rs line 73). -/
def insuff_buf : SnappyResult → Bool
  | SnappyResult.InsufficientBuffer => true
  | _ => false

/-- The `fmt::Display` implementation for `SnappyResult`
(src/snappy.rs lines 55-63), as the string it writes to the formatter. -/
def display : SnappyResult → String
  | SnappyResult.Ok => "Ok"
  | SnappyResult.InvalidInput => "Invalid Input"
  | SnappyResult.InsufficientBuffer => "Insufficient Buffer"

end SnappyResult

/-- Abstract model of the external snappy codec behind the `extern` block of
src/snappy.rs (the codec itself is google/snappy, outside this repository).
`compressFun input` is the compressed representation of `input`;
`uncompressFun` yields the decompressed bytes of a well-formed stream and
`none` on a corrupt one; `maxCompressedLength` is the worst-case bound;
`uncompressedLengthFun` parses the header and yields the stored uncompressed
length, `none` on parsing error; `validCompressed` is the structural check. -/
structure Codec where
  compressFun : List Nat → List Nat
  uncompressFun : List Nat → Option (List Nat)
  maxCompressedLength : Nat → Nat
  uncompressedLengthFun : List Nat → Option Nat
  validCompressed : List Nat → Bool

/-- `snappy_max_compressed_length` (src/snappy.rs line 157): maximal size of
the compressed representation of `source_length` input bytes. -/
def snappy_max_compressed_length (c : Codec) (source_length : Nat) : Nat :=
  c.maxCompressedLength source_length

/-- `snappy_compress` (src/snappy.rs line 121), per its doc comment: if the
capacity `compressed_length` is not at least `snappy_max_compressed_length`
of the input length, `InsufficientBuffer` is returned and the output buffer is
not guaranteed written; otherwise the compressed bytes are stored and `Ok` is
returned.  Returns (result code, content of the output buffer after the
call).  Note the binding declares `compressed_length` by value.  -/
def snappy_compress (c : Codec) (input : List Nat) (compressed : List Nat)
    (compressed_length : Nat) : SnappyResult × List Nat :=
  if compressed_length < c.maxCompressedLength input.length then
    (SnappyResult.InsufficientBuffer, compressed)
  else
    (SnappyResult.Ok, c.compressFun input)

/-- `snappy_uncompressed_length` (src/snappy.rs line 164), per its doc
comment: returns `Ok` and stores the length of the uncompressed data in
`*result` normally, returns `InvalidInput` on parsing error.  Modelled as
(result code, value stored through the result pointer); on failure the
scratch cell keeps its initial value `0` (the Rust caller initialises it so).  -/
def snappy_uncompressed_length (c : Codec) (compressed : List Nat) :
    SnappyResult × Nat :=
  match c.uncompressedLengthFun compressed with
  | some n => (SnappyResult.Ok, n)
  | none => (SnappyResult.InvalidInput, 0)

/-- `snappy_uncompress` (src/snappy.rs line 151), per its doc comment: fails
with `InvalidInput` if the stream is corrupted, with `InsufficientBuffer` if
the capacity `uncompressed_length` is below the true uncompressed length,
and otherwise stores the uncompressed data and returns `Ok`.  Returns
(result code, content of the output buffer after the call). -/
def snappy_uncompress (c : Codec) (compressed : List Nat)
    (uncompressed : List Nat) (uncompressed_length : Nat) :
    SnappyResult × List Nat :=
  match c.uncompressFun compressed with
  | none => (SnappyResult.InvalidInput, uncompressed)
  | some d =>
    if uncompressed_length < d.length then
      (SnappyResult.InsufficientBuffer, uncompressed)
    else
      (SnappyResult.Ok, d)

/-- `snappy_validate_compressed_buffer` (src/snappy.rs line 172): `Ok` iff
the contents can be uncompressed successfully, else `InvalidInput`. -/
def snappy_validate_compressed_buffer (c : Codec) (compressed : List Nat) :
    SnappyResult :=
  if c.validCompressed compressed then SnappyResult.Ok
  else SnappyResult.InvalidInput

/-- `libc::malloc` as used by `deflate`: a fresh buffer of `n` bytes; its
(uninitialised) content is modelled as zeros. -/
def malloc (n : Nat) : List Nat := List.replicate n 0

/-- `deflate` (src/snappy.rs lines 77-82), full effect: computes
`snappy_max_compressed_length` of the input length, shadows the caller's
`buffer_ptr` with a fresh `malloc` of that size, and calls `snappy_compress`
with that buffer and that capacity.  The pair is (returned result code,
content of the malloc'd buffer after the call). -/
def deflateRun (c : Codec) (input : List Nat) (buffer_ptr : List Nat) :
    SnappyResult × List Nat :=
  let output_len := snappy_max_compressed_length c input.length
  let buffer_ptr := malloc output_len
  snappy_compress c input buffer_ptr output_len

/-- The value the Rust `deflate` actually returns to its caller: only the
`SnappyResult` (the malloc'd buffer of `deflateRun` never reaches the
caller). -/
def deflate (c : Codec) (input : List Nat) (buffer_ptr : List Nat) :
    SnappyResult :=
  (deflateRun c input buffer_ptr).1

/-- `inflate` (src/snappy.rs lines 85-92): queries
`snappy_uncompressed_length`; if that check is `not_ok` it returns
`InvalidInput` without touching the output buffer; otherwise it calls
`snappy_uncompress` with the discovered length as capacity.  The pair is
(returned result code, content of the caller's output buffer after the
call). -/
def inflate (c : Codec) (input : List Nat) (output : List Nat) :
    SnappyResult × List Nat :=
  let checkLen := snappy_uncompressed_length c input
  if checkLen.1.not_ok then (SnappyResult.InvalidInput, output)
  else snappy_uncompress c input output checkLen.2

/-- `validate` (src/snappy.rs lines 96-98):
`snappy_validate_compressed_buffer(input, length).is_ok()`. -/
def validate (c : Codec) (input : List Nat) : Bool :=
  (snappy_validate_compressed_buffer c input).is_ok

/-- A concrete codec used to witness theorems: compression is the identity,
every buffer is a valid stream decompressing to itself. -/
def idCodec : Codec where
  compressFun := fun input => input
  uncompressFun := fun compressed => some compressed
  maxCompressedLength := fun n => n
  uncompressedLengthFun := fun compressed => some compressed.length
  validCompressed := fun _ => true

/-- A concrete codec used to witness theorems: every buffer is rejected as
corrupt by every query. -/
def rejectCodec : Codec where
  compressFun := fun input => input
  uncompressFun := fun _ => none
  maxCompressedLength := fun n => n
  uncompressedLengthFun := fun _ => none
  validCompressed := fun _ => false

/-- Replacing the decompression primitive of a codec changes nothing about
the uncompressed-length query. -/
theorem snappy_uncompressed_length_uncompress_irrel (c : Codec)
    (f : List Nat → Option (List Nat)) (input : List Nat) :
    snappy_uncompressed_length { c with uncompressFun := f } input =
      snappy_uncompressed_length c input := rfl

/-- Claim C1: for every byte buffer B (including the empty buffer), provided
the codec meets its documented round-trip contract on B (decompressing the
compressed form of B yields B, and the header query on that form yields
B.length), a deflate of B succeeds and inflating the buffer deflate produced
returns Ok together with a byte-for-byte copy of B. -/
theorem round_trip_identity (c : Codec) (B buffer_ptr output : List Nat)
    (hrt : c.uncompressFun (c.compressFun B) = some B)
    (hlen : c.uncompressedLengthFun (c.compressFun B) = some B.length) :
    deflate c B buffer_ptr = SnappyResult.Ok ∧
    inflate c ((deflateRun c B buffer_ptr).2) output = (SnappyResult.Ok, B) := by
  have hdef : deflateRun c B buffer_ptr = (SnappyResult.Ok, c.compressFun B) := by
    simp [deflateRun, snappy_compress, snappy_max_compressed_length]
  refine ⟨?_, ?_⟩
  · simp [deflate, hdef]
  · rw [hdef]
    simp [inflate, snappy_uncompressed_length, hlen, SnappyResult.not_ok,
      SnappyResult.is_ok, snappy_uncompress, hrt]

/-- Witness for C1 at the concrete codec `idCodec` and buffer [1, 2, 3]. -/
theorem round_trip_identity_witness :
    deflate idCodec [1, 2, 3] [] = SnappyResult.Ok ∧
    inflate idCodec ((deflateRun idCodec [1, 2, 3] []).2) [] =
      (SnappyResult.Ok, [1, 2, 3]) :=
  round_trip_identity idCodec [1, 2, 3] [] [] rfl rfl

/-- Claim C2 (code bug evidence): evaluated at the failing input (empty
input buffer, empty caller buffer), the Rust `deflate` hands its caller only
the bare result code `Ok` — `deflate`'s return type carries no buffer and no
true length, the malloc'd buffer of `deflateRun` being bound to a shadowing
local and leaked. -/
theorem deflate_returns_bare_code :
    deflate idCodec [] [] = SnappyResult.Ok := rfl

/-- Claim C3: whenever the uncompressed-length query reports a non-Ok result,
inflate returns InvalidInput with the output buffer untouched, and its value
does not depend on the decompress primitive at all (it is unchanged under any
replacement of `uncompressFun`), i.e. decompression is never invoked. -/
theorem inflate_short_circuit (c : Codec) (input output : List Nat)
    (h : (snappy_uncompressed_length c input).1.not_ok = true) :
    inflate c input output = (SnappyResult.InvalidInput, output) ∧
    ∀ f, inflate { c with uncompressFun := f } input output =
      (SnappyResult.InvalidInput, output) := by
  refine ⟨?_, fun f => ?_⟩
  · simp [inflate, h]
  · simp [inflate, snappy_uncompressed_length_uncompress_irrel, h]

/-- Witness for C3 at the concrete codec `rejectCodec`, whose header query
fails on every buffer. -/
theorem inflate_short_circuit_witness :
    (snappy_uncompressed_length rejectCodec [1, 2, 3]).1.not_ok = true ∧
    inflate rejectCodec [1, 2, 3] [9] = (SnappyResult.InvalidInput, [9]) :=
  ⟨rfl, (inflate_short_circuit rejectCodec [1, 2, 3] [9] rfl).1⟩

/-- Claim C4: provided the codec meets its documented contract on the
inspected buffer (the structural check accepts exactly the streams the
decompressor accepts, and the header query of a decodable stream yields the
decoded length), `validate` returns true iff `inflate` of the same bytes
returns Ok — including corrupted streams, where both sides are false. -/
theorem validate_iff_inflate_ok (c : Codec) (input output : List Nat)
    (hva : c.validCompressed input = true ↔ (c.uncompressFun input).isSome = true)
    (hlen : ∀ d, c.uncompressFun input = some d →
      c.uncompressedLengthFun input = some d.length) :
    validate c input = true ↔ (inflate c input output).1 = SnappyResult.Ok := by
  cases hu : c.uncompressFun input with
  | none =>
    have hv : c.validCompressed input = false := by
      cases hb : c.validCompressed input with
      | false => rfl
      | true =>
        exfalso
        have h2 := hva.mp hb
        rw [hu] at h2
        simp at h2
    constructor
    · intro hvt
      rw [validate, snappy_validate_compressed_buffer, hv] at hvt
      simp [SnappyResult.is_ok] at hvt
    · intro hok
      exfalso
      cases hq : c.uncompressedLengthFun input with
      | none =>
        rw [inflate] at hok
        simp [snappy_uncompressed_length, hq, SnappyResult.not_ok,
          SnappyResult.is_ok] at hok
      | some n =>
        rw [inflate] at hok
        simp [snappy_uncompressed_length, hq, SnappyResult.not_ok,
          SnappyResult.is_ok, snappy_uncompress, hu] at hok
  | some d =>
    have hv : c.validCompressed input = true := by
      rw [hva, hu]; rfl
    have hq := hlen d hu
    constructor
    · intro _
      simp [inflate, snappy_uncompressed_length, hq, SnappyResult.not_ok,
        SnappyResult.is_ok, snappy_uncompress, hu]
    · intro _
      simp [validate, snappy_validate_compressed_buffer, hv, SnappyResult.is_ok]

/-- Witness for C4 at the concrete codec `idCodec` and buffer [7]. -/
theorem validate_iff_inflate_ok_witness :
    validate idCodec [7] = true ∧ (inflate idCodec [7] []).1 = SnappyResult.Ok := by
  have h := validate_iff_inflate_ok idCodec [7] []
    ⟨fun _ => rfl, fun _ => rfl⟩
    (fun d hd => by
      have hd2 : [7] = d := by injection hd
      rw [← hd2]
      exact rfl)
  exact ⟨rfl, h.mp rfl⟩

/-- Claim C5: for every codec, input and caller buffer, deflate is exactly
the compress primitive applied to a freshly allocated buffer whose capacity
is the maximum-compressed-bound of the input length, computed before any
write; the fresh buffer has exactly that capacity, and deflate's result code
is the compress primitive's result code unchanged. -/
theorem deflate_structure (c : Codec) (input buffer_ptr : List Nat) :
    deflateRun c input buffer_ptr =
      snappy_compress c input
        (malloc (snappy_max_compressed_length c input.length))
        (snappy_max_compressed_length c input.length) ∧
    (malloc (snappy_max_compressed_length c input.length)).length =
      snappy_max_compressed_length c input.length ∧
    deflate c input buffer_ptr =
      (snappy_compress c input
        (malloc (snappy_max_compressed_length c input.length))
        (snappy_max_compressed_length c input.length)).1 :=
  ⟨rfl, List.length_replicate _ _, rfl⟩

/-- Claim C6: when the uncompressed-length query succeeds with length n,
inflate is exactly the decompress primitive invoked with capacity n, its
result passed through unchanged. -/
theorem inflate_uses_discovered_length (c : Codec) (input output : List Nat)
    (n : Nat) (h : c.uncompressedLengthFun input = some n) :
    inflate c input output = snappy_uncompress c input output n := by
  simp [inflate, snappy_uncompressed_length, h, SnappyResult.not_ok,
    SnappyResult.is_ok]

/-- Witness for C6 at the concrete codec `idCodec` and buffer [5, 6]. -/
theorem inflate_uses_discovered_length_witness :
    inflate idCodec [5, 6] [] = snappy_uncompress idCodec [5, 6] [] 2 :=
  inflate_uses_discovered_length idCodec [5, 6] [] 2 rfl

/-- Claim C7: deflate's result does not depend on the caller-supplied buffer
argument — for any two caller buffers the full effect (result code and
malloc'd buffer content) is identical, the caller pointer being discarded in
favour of fresh storage. -/
theorem deflate_ignores_caller_buffer (c : Codec) (input b1 b2 : List Nat) :
    deflateRun c input b1 = deflateRun c input b2 ∧
    deflate c input b1 = deflate c input b2 :=
  ⟨rfl, rfl⟩

/-- Claim C8: over every SnappyResult value, is_ok holds exactly on Ok,
not_ok is the exact complement of is_ok, bad_input holds exactly on
InvalidInput, and insuff_buf holds exactly on InsufficientBuffer. -/
theorem snappyResult_predicates (r : SnappyResult) :
    (r.is_ok = true ↔ r = SnappyResult.Ok) ∧
    (r.not_ok = true ↔ ¬ r.is_ok = true) ∧
    (r.bad_input = true ↔ r = SnappyResult.InvalidInput) ∧
    (r.insuff_buf = true ↔ r = SnappyResult.InsufficientBuffer) := by
  cases r <;>
    simp [SnappyResult.is_ok, SnappyResult.not_ok, SnappyResult.bad_input,
      SnappyResult.insuff_buf]

/-- Claim C9: the Display rendering of SnappyResult maps Ok to "Ok",
InvalidInput to "Invalid Input", InsufficientBuffer to "Insufficient
Buffer", and is total: every value renders as one of these three strings. -/
theorem snappyResult_display_total :
    SnappyResult.display SnappyResult.Ok = "Ok" ∧
    SnappyResult.display SnappyResult.InvalidInput = "Invalid Input" ∧
    SnappyResult.display SnappyResult.InsufficientBuffer = "Insufficient Buffer" ∧
    ∀ r : SnappyResult, SnappyResult.display r = "Ok" ∨
      SnappyResult.display r = "Invalid Input" ∨
      SnappyResult.display r = "Insufficient Buffer" := by
  refine ⟨rfl, rfl, rfl, fun r => ?_⟩
  cases r
  · exact Or.inl rfl
  · exact Or.inr (Or.inl rfl)
  · exact Or.inr (Or.inr rfl)

/-- Claim C10: when the header query fails, inflate leaves the caller's
output buffer completely unchanged, whatever the decompress primitive would
do (no output-writing primitive is invoked on that path). -/
theorem inflate_short_circuit_preserves_output (c : Codec)
    (input output : List Nat) (h : c.uncompressedLengthFun input = none) :
    (inflate c input output).2 = output ∧
    ∀ f, (inflate { c with uncompressFun := f } input output).2 = output := by
  have hq : (snappy_uncompressed_length c input).1.not_ok = true := by
    simp [snappy_uncompressed_length, h, SnappyResult.not_ok, SnappyResult.is_ok]
  refine ⟨?_, fun f => ?_⟩
  · simp [inflate, hq]
  · simp [inflate, snappy_uncompressed_length_uncompress_irrel, hq]

/-- Witness for C10 at the concrete codec `rejectCodec` and output buffer
[4, 4]. -/
theorem inflate_short_circuit_preserves_output_witness :
    (inflate rejectCodec [8] [4, 4]).2 = [4, 4] :=
  (inflate_short_circuit_preserves_output rejectCodec [8] [4, 4] rfl).1
